import Mathlib

/-!
Verification of the market-workflow derivation pipeline.

This file gives a shallow embedding, in Lean 4, of the core logic of the
repository: the classifier set and context builder (`src/logic/modules.py`),
the relevance banding (`src/logic/relevance.py`) and the signal detector
(`src/logic/signals.py`), together with theorems settling the behavioural
claims about them.

Modelling conventions:
* Python floats are modelled as rationals (`ℚ`); `NaN`-able / missing values
  as `Option ℚ` (with `none` = `NaN`/missing, and comparisons against `none`
  evaluating to `False`, as IEEE comparisons against `NaN` do).
* Python `round(x, 2)` is modelled as round-half-to-even at two decimals.
* A Python dict (a context row obtained from `DataFrame.to_dict()`) is an
  association list from column names to `PyVal` values; `dict.get` with a
  default is `dictGet`.
* Fallible code (a `ZeroDivisionError` on a zero reference level, a
  `TypeError` from `float()` on a non-numeric value) is modelled in
  `Except String`.
* The rolling volume z-score `(x - mean) / std` involves a square root
  (`std = sqrt(variance)`), which is irrational; a z-score entry is therefore
  represented exactly as the pair `ZVal.val num var`, denoting the real
  number `num / sqrt var`, and the comparisons and rounding that
  `detect_signals` performs on it are implemented exactly on that
  representation (by sign analysis and squaring).
-/

namespace MarketWorkflow

/-! ### Configuration constants, from `src/config.py` -/

/-- `config.TOLERANCE_PCT = 0.20`: 0.2% tolerance for level tests. -/
def TOLERANCE_PCT : ℚ := 20 / 100

/-- `config.COMPRESSION_THRESHOLD = 0.015`: value-area width below 1.5% is compressed. -/
def COMPRESSION_THRESHOLD : ℚ := 15 / 1000

/-- `config.EXTENDED_THRESHOLD = 2.0`: 2% outside value is extended. -/
def EXTENDED_THRESHOLD : ℚ := 2

/-- `config.OVERLAP_BALANCED = 0.70`. -/
def OVERLAP_BALANCED : ℚ := 70 / 100

/-- `config.OVERLAP_TRENDING = 0.30`. -/
def OVERLAP_TRENDING : ℚ := 30 / 100

/-! ### Python values and dicts -/

/-- A Python value as it occurs in a context-row dict of this app:
`None`, a float, a string, or a list of strings (the `warnings` column). -/
inductive PyVal where
  | pnone : PyVal
  | num : ℚ → PyVal
  | str : String → PyVal
  | strList : List String → PyVal
deriving DecidableEq

/-- A context row converted to a dict (`DataFrame.loc[symbol].to_dict()`). -/
abbrev PyDict := List (String × PyVal)

/-- `d.get(k, dflt)` on a Python dict. -/
def dictGet (d : PyDict) (k : String) (dflt : PyVal) : PyVal :=
  match d.find? (fun kv => kv.fst == k) with
  | some kv => kv.snd
  | none => dflt

/-- Decidable equality of `Except` results (used to evaluate the fallible
functions of the model on concrete inputs). -/
instance {e a : Type} [DecidableEq e] [DecidableEq a] : DecidableEq (Except e a) := fun x y =>
  match x, y with
  | Except.error e1, Except.error e2 =>
    if h : e1 = e2 then isTrue (h ▸ rfl) else isFalse (fun hc => h (Except.error.inj hc))
  | Except.ok v1, Except.ok v2 =>
    if h : v1 = v2 then isTrue (h ▸ rfl) else isFalse (fun hc => h (Except.ok.inj hc))
  | Except.error _, Except.ok _ => isFalse (fun hc => Except.noConfusion hc)
  | Except.ok _, Except.error _ => isFalse (fun hc => Except.noConfusion hc)

/-- `float(v)` on a Python value: succeeds on numbers, raises `TypeError` /
`ValueError` on `None`, lists and the (non-numeric) strings this app stores. -/
def pyFloat (v : PyVal) : Except String ℚ :=
  match v with
  | PyVal.num q => Except.ok q
  | _ => Except.error "TypeError: float() argument is not a number"

/-- `Option ℚ` to the dict value it is stored as (`None` / float). -/
def optNum (v : Option ℚ) : PyVal :=
  match v with
  | none => PyVal.pnone
  | some q => PyVal.num q

/-! ### Rounding, as Python `round(x, 2)` (round half to even) -/

/-- Round a rational to the nearest integer, halves to even
(the semantics of Python `round`). -/
def rndHalfEven (q : ℚ) : ℤ :=
  let f := ⌊q⌋
  let r := q - (f : ℚ)
  if r < 1 / 2 then f
  else if 1 / 2 < r then f + 1
  else if f % 2 = 0 then f else f + 1

/-- Python `round(q, 2)`. -/
def round2 (q : ℚ) : ℚ := (rndHalfEven (q * 100) : ℚ) / 100

/-! ### `src/logic/modules.py`: data model and classifiers -/

/-- One weekly structural row as it reaches the classifiers: the BigQuery
columns of `config.BQ_QUERY_WEEKLY_LEVELS`, with the numeric columns already
coerced by `pd.to_numeric(..., errors='coerce')` (so a missing or unparsable
value is `none`, modelling `NaN`). The period start date is modelled as an
integer ordinal (only its ordering is used, for the latest-row selection). -/
structure StructRow where
  symbol : String
  timeframe : String
  period_start_date : ℤ
  final_poc : Option ℚ
  final_vah : Option ℚ
  final_val : Option ℚ
  prior_final_poc : Option ℚ
  prior_final_vah : Option ℚ
  prior_final_val : Option ℚ
  va_width_pct : Option ℚ
  poc_change_pct : Option ℚ
  value_overlap_pct : Option ℚ
  coverage_flag : String
deriving DecidableEq

/-- A structural row joined with its live price (step 3 of
`calculate_trade_ready_context`: rows without a price were dropped,
`price` is a genuine float). -/
structure PricedRow extends StructRow where
  price : ℚ
deriving DecidableEq

/-- The six defined price-interaction tags (as detector results). -/
def interactionTags : List (Except String String) :=
  [Except.ok "TEST_POC", Except.ok "TEST_VAL", Except.ok "TEST_VAH",
   Except.ok "INSIDE_VALUE", Except.ok "BELOW_VALUE", Except.ok "ABOVE_VALUE"]

/-- `modules.pct_distance(price, level)`: signed % distance from a level,
`None` when the level is missing (`NaN`) or exactly zero, else
`round((price - level) / level * 100, 2)`. -/
def pct_distance (price : ℚ) (level : Option ℚ) : Option ℚ :=
  match level with
  | none => none
  | some l => if l = 0 then none else some (round2 ((price - l) / l * 100))

/-- `modules.compute_regime(row)`: weekly regime from `value_overlap_pct`. -/
def compute_regime (row : PricedRow) : String :=
  match row.value_overlap_pct with
  | none => "TRANSITIONAL"
  | some overlap =>
    if overlap ≥ OVERLAP_BALANCED then "BALANCED"
    else if overlap ≤ OVERLAP_TRENDING then "TRENDING"
    else "TRANSITIONAL"

/-- `modules.compute_htf_direction(row)`: W-1 vs W-2 direction. The code
first returns `NEUTRAL` when either POC is `NaN`; with any of the four
VAH/VAL inputs `NaN` the deltas are `NaN` and both strict comparisons are
false, so the result is again `NEUTRAL`. -/
def compute_htf_direction (row : PricedRow) : String :=
  match row.final_poc, row.prior_final_poc with
  | some w1_poc, some w2_poc =>
    match row.final_vah, row.final_val, row.prior_final_vah, row.prior_final_val with
    | some w1_vah, some w1_val, some w2_vah, some w2_val =>
      let poc_delta := w1_poc - w2_poc
      let mid_delta := (w1_vah + w1_val) / 2 - (w2_vah + w2_val) / 2
      if poc_delta > 0 ∧ mid_delta > 0 then "UP"
      else if poc_delta < 0 ∧ mid_delta < 0 then "DOWN"
      else "NEUTRAL"
    | _, _, _, _ => "NEUTRAL"
  | _, _ => "NEUTRAL"

/-- One relative-tolerance level test `abs(price - level) / level <= tol`:
`false` when the level is `NaN` (IEEE comparison), a `ZeroDivisionError`
when the level is exactly zero (Python float division), else the comparison. -/
def testLevel (price : ℚ) (level : Option ℚ) (tol : ℚ) : Except String Bool :=
  match level with
  | none => Except.ok false
  | some l =>
    if l = 0 then Except.error "ZeroDivisionError: float division by zero"
    else Except.ok (decide (|price - l| / l ≤ tol))

/-- `val <= price <= vah`, false under a `NaN` bound. -/
def insideValue (price : ℚ) (val vah : Option ℚ) : Bool :=
  match val, vah with
  | some v, some h => decide (v ≤ price ∧ price ≤ h)
  | _, _ => false

/-- `price < val`, false when `val` is `NaN`. -/
def belowValue (price : ℚ) (val : Option ℚ) : Bool :=
  match val with
  | some v => decide (price < v)
  | none => false

/-- `price > vah`, false when `vah` is `NaN`. -/
def aboveValue (price : ℚ) (vah : Option ℚ) : Bool :=
  match vah with
  | some h => decide (h < price)
  | none => false

/-- `modules.compute_interaction_tag(row)`: price interaction vs the W-1
levels, tested in priority order POC, VAL, VAH, then inside/below/above,
with `UNKNOWN` as the final fallback. A zero level reached by a test raises
`ZeroDivisionError` (the error case of the `Except`). -/
def compute_interaction_tag (row : PricedRow) : Except String String :=
  let tol := TOLERANCE_PCT / 100
  match testLevel row.price row.final_poc tol with
  | Except.error e => Except.error e
  | Except.ok true => Except.ok "TEST_POC"
  | Except.ok false =>
    match testLevel row.price row.final_val tol with
    | Except.error e => Except.error e
    | Except.ok true => Except.ok "TEST_VAL"
    | Except.ok false =>
      match testLevel row.price row.final_vah tol with
      | Except.error e => Except.error e
      | Except.ok true => Except.ok "TEST_VAH"
      | Except.ok false =>
        if insideValue row.price row.final_val row.final_vah then Except.ok "INSIDE_VALUE"
        else if belowValue row.price row.final_val then Except.ok "BELOW_VALUE"
        else if aboveValue row.price row.final_vah then Except.ok "ABOVE_VALUE"
        else Except.ok "UNKNOWN"

/-- `modules.compute_warnings(row)`: the warning tags, in append order.
The three `pct_to_w_*` arguments are the columns added at lines 61-63 of
`modules.py` (they hold `pct_distance` of the price to VAL / POC / VAH and
are read back by `compute_warnings` via `row.get`). The source builds a
Python list by successive `append`s; note the two independent `EXTENDED`
appends. -/
def compute_warnings (row : PricedRow)
    (pct_to_w_val pct_to_w_poc pct_to_w_vah : Option ℚ) : List String :=
  (if row.coverage_flag ≠ "" ∧ row.coverage_flag.toLower ∉ ["full", "complete", ""]
   then ["LOW_CONFIDENCE"] else [])
  ++ (match row.va_width_pct with
      | some w => if w < COMPRESSION_THRESHOLD then ["COMPRESSED"] else []
      | none => [])
  ++ (match pct_to_w_poc, row.va_width_pct with
      | some pp, some w => if |pp| < 2 / 10 ∧ w < 2 / 100 then ["PINNED"] else []
      | _, _ => [])
  ++ (match pct_to_w_val with
      | some pv => if pv < -EXTENDED_THRESHOLD then ["EXTENDED"] else []
      | none => [])
  ++ (match pct_to_w_vah with
      | some ph => if ph > EXTENDED_THRESHOLD then ["EXTENDED"] else []
      | none => [])

/-- `modules.compute_bias_compatibility(row)`: composite verdict. The four
arguments are the values the source reads from the row via `row.get`
(columns `warnings`, `regime_w1`, `htf_dir_w1`, `now_interaction_w1`). -/
def compute_bias_compatibility (warnings : List String)
    (regime htf_dir interaction : String) : String :=
  if "PINNED" ∈ warnings ∨ "COMPRESSED" ∈ warnings then "NEUTRAL_WAIT"
  else if regime = "TRENDING" then
    if htf_dir = "UP" then
      if interaction ∈ ["BELOW_VALUE", "TEST_VAL", "TEST_POC", "INSIDE_VALUE"]
      then "FAVORS_LONG" else "NEUTRAL_WAIT"
    else if htf_dir = "DOWN" then
      if interaction ∈ ["ABOVE_VALUE", "TEST_VAH", "TEST_POC", "INSIDE_VALUE"]
      then "FAVORS_SHORT" else "NEUTRAL_WAIT"
    else "NEUTRAL_WAIT"
  else if regime = "BALANCED" then
    if interaction ∈ ["TEST_VAL", "BELOW_VALUE"] then "FAVORS_LONG"
    else if interaction ∈ ["TEST_VAH", "ABOVE_VALUE"] then "FAVORS_SHORT"
    else "NEUTRAL_WAIT"
  else if regime = "TRANSITIONAL" then
    if interaction ∈ ["TEST_VAL", "BELOW_VALUE"] then "FAVORS_LONG"
    else if interaction ∈ ["TEST_VAH", "ABOVE_VALUE"] then "FAVORS_SHORT"
    else "NEUTRAL_WAIT"
  else "NEUTRAL_WAIT"

/-! ### `src/logic/modules.py`: `calculate_trade_ready_context` (the Context Builder) -/

/-- Stable insertion (descending by `period_start_date`) used to model
`df.sort_values('period_start_date', ascending=False)`. -/
def insertByDateDesc (x : String × StructRow) :
    List (String × StructRow) → List (String × StructRow)
  | [] => [x]
  | y :: ys =>
    if y.2.period_start_date < x.2.period_start_date then x :: y :: ys
    else y :: insertByDateDesc x ys

/-- Sort rows by period start date, latest first. -/
def sortByDateDesc (l : List (String × StructRow)) : List (String × StructRow) :=
  l.foldr insertByDateDesc []

/-- `df.drop_duplicates('symbol_clean')`: keep the first row per clean
symbol (after the descending date sort this is the latest row). -/
def dedupFirst : List (String × StructRow) → List String → List (String × StructRow)
  | [], _ => []
  | x :: xs, seen =>
    if x.1 ∈ seen then dedupFirst xs seen
    else x :: dedupFirst xs (x.1 :: seen)

/-- Index lookup in the Binance price `Series` (`df['price'] = current_prices`
joins on the `symbol_clean` index; symbols without a price become `NaN` and
are dropped by the following `dropna`). -/
def seriesGet (prices : List (String × ℚ)) (k : String) : Option ℚ :=
  (prices.find? (fun p => p.1 == k)).map (fun p => p.2)

/-- Lines 57-67 of `modules.py` applied to one joined row: compute every
derived column and produce the row as the dict `df.loc[symbol].to_dict()`
yields it (the `symbol_clean` index itself is not a dict key). Raises
(propagates) the `ZeroDivisionError` of `compute_interaction_tag`. -/
def enrichRow (row : PricedRow) : Except String PyDict :=
  match compute_interaction_tag row with
  | Except.error e => Except.error e
  | Except.ok interaction =>
    let regime := compute_regime row
    let htf := compute_htf_direction row
    let pv := pct_distance row.price row.final_val
    let pp := pct_distance row.price row.final_poc
    let ph := pct_distance row.price row.final_vah
    let warns := compute_warnings row pv pp ph
    let bias := compute_bias_compatibility warns regime htf interaction
    Except.ok
      [("symbol", PyVal.str row.symbol),
       ("timeframe", PyVal.str row.timeframe),
       ("period_start_date", PyVal.num (row.period_start_date : ℚ)),
       ("final_poc", optNum row.final_poc),
       ("final_vah", optNum row.final_vah),
       ("final_val", optNum row.final_val),
       ("prior_final_poc", optNum row.prior_final_poc),
       ("prior_final_vah", optNum row.prior_final_vah),
       ("prior_final_val", optNum row.prior_final_val),
       ("va_width_pct", optNum row.va_width_pct),
       ("poc_change_pct", optNum row.poc_change_pct),
       ("value_overlap_pct", optNum row.value_overlap_pct),
       ("coverage_flag", PyVal.str row.coverage_flag),
       ("price", PyVal.num row.price),
       ("regime_w1", PyVal.str regime),
       ("htf_dir_w1", PyVal.str htf),
       ("now_interaction_w1", PyVal.str interaction),
       ("pct_to_w_val", optNum pv),
       ("pct_to_w_poc", optNum pp),
       ("pct_to_w_vah", optNum ph),
       ("warnings", PyVal.strList warns),
       ("bias_compatibility", PyVal.str bias)]

/-- `modules.calculate_trade_ready_context(weekly_df, current_prices)`:
normalize symbols (strip the `.P` contract suffix), keep the latest row per
clean symbol, join live prices (dropping symbols with none), and compute all
derived columns. The output is the list of (clean symbol, row dict) pairs.
Numeric coercion (`Decimal` to float) is implicit in the `ℚ`-valued model. -/
def calculate_trade_ready_context (weekly_df : List StructRow)
    (current_prices : List (String × ℚ)) : Except String (List (String × PyDict)) :=
  if weekly_df = [] then Except.ok []
  else
    let cleaned := weekly_df.map (fun r => (r.symbol.replace ".P" "", r))
    let latest := dedupFirst (sortByDateDesc cleaned) []
    let priced := latest.filterMap (fun kr =>
      (seriesGet current_prices kr.1).map (fun p => (kr.1, PricedRow.mk kr.2 p)))
    priced.mapM (fun kr => (enrichRow kr.2).map (fun d => (kr.1, d)))

/-! ### `src/logic/relevance.py`: relevance banding -/

/-- The band classifier `_get_band(row)` of `relevance.classify_relevance`.
The three arguments are the values its `row.get` calls read (columns
`warnings`, `regime_w1`, `now_interaction_w1`, with defaults `[]`,
`'TRANSITIONAL'`, `'UNKNOWN'`). -/
def _get_band (warnings : List String) (regime interaction : String) : String :=
  if "COMPRESSED" ∈ warnings then "Ignore for Now"
  else if "PINNED" ∈ warnings ∧ regime = "BALANCED" then "Ignore for Now"
  else if interaction ∈ ["TEST_POC", "TEST_VAL", "TEST_VAH"] then "Trade Ready"
  else if regime ∈ ["TRENDING", "TRANSITIONAL"] then "Trade Ready"
  else if regime = "BALANCED" ∧ interaction = "INSIDE_VALUE" then "Watch"
  else "Ignore for Now"

/-- Read the `warnings` column of a row dict (always a list of strings in
rows built by `enrichRow`). -/
def getWarningsCol (d : PyDict) : List String :=
  match dictGet d "warnings" (PyVal.strList []) with
  | PyVal.strList l => l
  | _ => []

/-- Read a string column of a row dict with a default. -/
def getStrCol (d : PyDict) (k dflt : String) : String :=
  match dictGet d k (PyVal.str dflt) with
  | PyVal.str s => s
  | _ => dflt

/-- `relevance.classify_relevance(context_df)`: append the
`relevance_band` column; an empty frame passes through unchanged. -/
def classify_relevance (context_df : List (String × PyDict)) :
    List (String × PyDict) :=
  context_df.map (fun kd =>
    (kd.1, kd.2 ++ [("relevance_band", PyVal.str
      (_get_band (getWarningsCol kd.2) (getStrCol kd.2 "regime_w1" "TRANSITIONAL")
        (getStrCol kd.2 "now_interaction_w1" "UNKNOWN")))]))

/-! ### `src/logic/signals.py`: z-score, CVD momentum, signal detection -/

/-- One OHLCV candle, restricted to the columns `signals.py` reads. -/
structure Candle where
  volume : ℚ
  taker_buy_base : ℚ
deriving DecidableEq

/-- A rolling-z-score entry. `ZVal.val num var` denotes the real number
`num / sqrt var` (with `var ≥ 0` the sample variance of the window), i.e.
`(x - mean) / std`; `ZVal.val num 0` denotes the IEEE result of division by
a zero standard deviation (`NaN` when `num = 0`, signed infinity otherwise),
and `ZVal.nan` an incomplete rolling window. -/
inductive ZVal where
  | nan : ZVal
  | val : ℚ → ℚ → ZVal
deriving DecidableEq

/-- Decide `c ≤ a / sqrt v` for rationals with `v > 0`, by sign analysis
and squaring (both sides of `c * sqrt v ≤ a` are squared on the branch
where they share a sign). -/
def sqrtLe (c a v : ℚ) : Bool :=
  if 0 ≤ c then decide (0 ≤ a ∧ c ^ 2 * v ≤ a ^ 2)
  else decide (0 ≤ a) || decide (a ^ 2 ≤ c ^ 2 * v)

/-- Decide `c < a / sqrt v` for rationals with `v > 0`. -/
def sqrtLt (c a v : ℚ) : Bool :=
  if 0 ≤ c then decide (0 < a ∧ c ^ 2 * v < a ^ 2)
  else decide (0 ≤ a) || decide (a ^ 2 < c ^ 2 * v)

/-- `⌊a / sqrt v⌋` for rationals with `v > 0`, computed by a bounded search:
`|a / sqrt v| ≤ |a| * (1 + 1/v)` since `1 / sqrt v ≤ max 1 (1/v)`, so the
floor lies in `(-B, B]` for `B := ⌈|a| * (1 + 1/v)⌉ + 1`, and because
`m ≤ a / sqrt v` is downward closed in `m` the floor is `-B` plus the count
of integers in `(-B, B]` below the value. (Returns 0 for `v ≤ 0`; callers
only use `v > 0`.) -/
def floorQdivSqrt (a v : ℚ) : ℤ :=
  if v ≤ 0 then 0
  else
    let B : ℕ := (⌈|a| * (1 + 1 / v)⌉).toNat + 1
    (-(B : ℤ)) + ((List.range (2 * B)).countP
      (fun k => sqrtLe ((-(B : ℤ) + 1 + (k : ℤ) : ℤ) : ℚ) a v) : ℤ)

/-- Round `a / sqrt v` (`v > 0`) to the nearest integer, halves to even. -/
def roundHalfEvenQdivSqrt (a v : ℚ) : ℤ :=
  let f := floorQdivSqrt a v
  if sqrtLe ((f : ℚ) + 1 / 2) a v then
    if sqrtLt ((f : ℚ) + 1 / 2) a v then f + 1
    else if f % 2 = 0 then f else f + 1
  else f

/-- Python `round(z, 2)` on a z-score value: `NaN` and the
division-by-zero-std values round to themselves, a finite `num / sqrt var`
rounds to the rational `round(100 * num / sqrt var) / 100` (represented
with variance 1, since `r / sqrt 1 = r`). -/
def zround2 (z : ZVal) : ZVal :=
  match z with
  | ZVal.nan => ZVal.nan
  | ZVal.val n v =>
    if v = 0 then ZVal.val n v
    else ZVal.val ((roundHalfEvenQdivSqrt (100 * n) v : ℚ) / 100) 1

/-- `pd.isna` on a z-score entry: true for an incomplete window, and for
`0 / 0` (zero deviation from a zero-variance window); a nonzero numerator
over a zero variance is a signed infinity, which is not `NaN`. -/
def ZVal.isna (z : ZVal) : Bool :=
  match z with
  | ZVal.nan => true
  | ZVal.val n v => decide (v = 0 ∧ n = 0)

/-- `z >= c` on a z-score entry against a rational threshold: false for
`NaN`, true for `+inf`, and the exact comparison `num / sqrt var ≥ c` for a
positive variance. -/
def ZVal.geQ (z : ZVal) (c : ℚ) : Bool :=
  match z with
  | ZVal.nan => false
  | ZVal.val n v => if v = 0 then decide (0 < n) else sqrtLe c n v

/-- Mean of a list (`Series.mean` over a full rolling window). -/
def qmean (l : List ℚ) : ℚ := l.sum / (l.length : ℚ)

/-- Sample variance (pandas `Series.std` squared, `ddof = 1`). -/
def sampleVar (l : List ℚ) : ℚ :=
  let m := qmean l
  (l.map (fun x => (x - m) ^ 2)).sum / ((l.length : ℚ) - 1)

/-- `signals.calculate_zscore(series, window)`: the rolling z-score column.
Entry `i` is `NaN` until the window is full, else
`(series[i] - mean) / std` over the last `window` entries ending at `i`,
represented exactly as `ZVal.val (series[i] - mean) (sampleVar window)`. -/
def calculate_zscore (series : List ℚ) (window : ℕ) : List ZVal :=
  (List.range series.length).map (fun i =>
    if i + 1 < window then ZVal.nan
    else
      let w := (series.take (i + 1)).drop (i + 1 - window)
      ZVal.val (series.getD i 0 - qmean w) (sampleVar w))

/-- `Series.cumsum`. -/
def cumsum (l : List ℚ) : List ℚ := (l.scanl (· + ·) 0).drop 1

/-- The last `n` entries of a list. -/
def lastN (l : List ℚ) (n : ℕ) : List ℚ := l.drop (l.length - n)

/-- `series.rolling(window=w).mean().iloc[-1]`: `NaN` (`none`) when fewer
than `w` entries exist, else the mean of the last `w` entries. -/
def rollingMeanLast (l : List ℚ) (w : ℕ) : Option ℚ :=
  if l.length < w then none else some (qmean (lastN l w))

/-- The CVD curve: cumulative sum of the per-candle order-flow delta
`2 * taker_buy_base - volume`. -/
def cvdCurve (rows : List Candle) : List ℚ :=
  cumsum (rows.map (fun c => 2 * c.taker_buy_base - c.volume))

/-- `signals.calculate_cvd_momentum(df, short_period, long_period)`
(defaults 11 and 21 at the call site): label and raw short-minus-long delta
of the latest CVD moving averages, `('NEUTRAL', None)` on an empty or
too-short series (and on the `pd.isna` guard of lines 31-32, which for a
series of length at least `long_period` never fires). -/
def calculate_cvd_momentum (rows : List Candle)
    (short_period long_period : ℕ) : String × Option ℚ :=
  if rows = [] ∨ rows.length < long_period then ("NEUTRAL", none)
  else
    let cvd := cvdCurve rows
    match rollingMeanLast cvd short_period, rollingMeanLast cvd long_period with
    | some latest_short, some latest_long =>
      if latest_short > latest_long * (101 / 100) then
        ("BULLISH", some (latest_short - latest_long))
      else if latest_short < latest_long * (99 / 100) then
        ("BEARISH", some (latest_short - latest_long))
      else
        ("NEUTRAL", some (latest_short - latest_long))
    | _, _ => ("NEUTRAL", none)

/-- The klines `DataFrame` handed to `detect_signals`: the fetched OHLCV
rows (restricted to the columns the detector reads) plus the `vol_zscore`
column, which is absent (`none`) on a freshly fetched frame and is written
by `detect_signals` itself (line 60 of `signals.py` assigns into the
caller's frame). -/
structure KlinesDF where
  rows : List Candle
  vol_zscore : Option (List ZVal)
deriving DecidableEq

/-- One emitted signal dict. The `zscore` field holds the rounded value
(`round(float(z), 2)`), or `none` for Python `None`. -/
structure Signal where
  symbol : String
  trigger : String
  zscore : Option ZVal
  cvd_momentum : String
  price_loc : PyVal
  auction_state : PyVal
  current_price : ℚ
deriving DecidableEq

/-- `signals.detect_signals(symbol, klines_df, context_row,
zscore_threshold)`. The returned pair is (the klines frame as the caller
sees it after the call, the list of emitted signals); the frame component
records the in-place `vol_zscore` column assignment of line 60. The
`Except` error case models the `TypeError` that
`float(context_row.get('current_price', 0))` would raise on a non-numeric
dict value, which Python only evaluates when a signal is actually appended.
The CVD branch pair (lines 84 and 94) is an `if`/`elif`. -/
def detect_signals (symbol : String) (klines_df : KlinesDF)
    (context_row : PyDict) (zscore_threshold : ℚ) :
    Except String (KlinesDF × List Signal) :=
  if klines_df.rows = [] ∨ klines_df.rows.length < 25 then
    Except.ok (klines_df, [])
  else
    let zcol := calculate_zscore (klines_df.rows.map Candle.volume) 20
    let df := KlinesDF.mk klines_df.rows (some zcol)
    let latest_zscore := zcol.getLastD ZVal.nan
    let cvd_momentum := (calculate_cvd_momentum klines_df.rows 11 21).1
    let price_loc := dictGet context_row "price_loc_w" (PyVal.str "UNKNOWN")
    let is_at_level :=
      decide (price_loc ∈ [PyVal.str "TEST_POC", PyVal.str "ABOVE", PyVal.str "BELOW"])
    let auction_state := dictGet context_row "weekly_auction_state" (PyVal.str "N/A")
    let condA := !latest_zscore.isna && latest_zscore.geQ zscore_threshold && is_at_level
    let condB := decide (cvd_momentum = "BULLISH")
      && decide (auction_state = PyVal.str "TRENDING")
      && decide (price_loc ∈ [PyVal.str "BELOW", PyVal.str "TEST_POC"])
    let condC := decide (cvd_momentum = "BEARISH")
      && decide (auction_state = PyVal.str "TRENDING")
      && decide (price_loc ∈ [PyVal.str "ABOVE", PyVal.str "TEST_POC"])
    match (if condA || condB || condC
           then pyFloat (dictGet context_row "current_price" (PyVal.num 0))
           else Except.ok 0) with
    | Except.error e => Except.error e
    | Except.ok current_price =>
      let zfield := if latest_zscore.isna then none else some (zround2 latest_zscore)
      let sigsA :=
        if condA then
          [Signal.mk symbol "VOL_ZSCORE" (some (zround2 latest_zscore)) cvd_momentum
            price_loc auction_state current_price]
        else []
      let sigsBC :=
        if condB then
          [Signal.mk symbol "CVD_BULLISH_ALIGN" zfield cvd_momentum
            price_loc auction_state current_price]
        else if condC then
          [Signal.mk symbol "CVD_BEARISH_ALIGN" zfield cvd_momentum
            price_loc auction_state current_price]
        else []
      Except.ok (df, sigsA ++ sigsBC)

/-! ### Specification-side definitions (for the refinement claims)

These two definitions are transcribed from the specification's wording, not
from the source, and serve as the comparison side of refinement checks. -/

/-- The relevance-banding priority chain as the specification words it
(spec section 4.4, quoted in the claim): compression first, then pinned in
balance, then the test tags, then trending/transitional, then balanced
inside value, lowest tier otherwise. -/
def bandSpec (warnings : List String) (regime interaction : String) : String :=
  if "COMPRESSED" ∈ warnings then "Ignore for Now"
  else if "PINNED" ∈ warnings ∧ regime = "BALANCED" then "Ignore for Now"
  else if interaction = "TEST_POC" ∨ interaction = "TEST_VAL" ∨ interaction = "TEST_VAH" then
    "Trade Ready"
  else if regime = "TRENDING" ∨ regime = "TRANSITIONAL" then "Trade Ready"
  else if regime = "BALANCED" ∧ interaction = "INSIDE_VALUE" then "Watch"
  else "Ignore for Now"

/-- The regime classification as the specification words it (spec section
4.3): missing overlap is transitional, at least 0.70 is balanced, at most
0.30 is trending, everything else transitional. -/
def regimeSpec (overlap : Option ℚ) : String :=
  match overlap with
  | none => "TRANSITIONAL"
  | some o =>
    if o ≥ 70 / 100 then "BALANCED"
    else if o ≤ 30 / 100 then "TRENDING"
    else "TRANSITIONAL"

/-! ### Concrete inputs used by the counterexample and failing-input theorems -/

/-- A weekly BigQuery row for the claim-1 failing input: overlap 0.20 (so
the regime is TRENDING) and levels VAL 100 / POC 200 / VAH 400 far from the
price 50 (so the interaction is BELOW_VALUE). -/
def c1bq : StructRow :=
  { symbol := "AAAUSDT.P", timeframe := "W", period_start_date := 6,
    final_poc := some 200, final_vah := some 400, final_val := some 100,
    prior_final_poc := none, prior_final_vah := none, prior_final_val := none,
    va_width_pct := some (5 / 100), poc_change_pct := none,
    value_overlap_pct := some (20 / 100), coverage_flag := "full" }

/-- The live-price snapshot for the claim-1 failing input. -/
def c1prices : List (String × ℚ) := [("AAAUSDT", 50)]

/-- 25 candles whose taker-buy volume equals the total volume, so the CVD
curve rises by 2 per candle and its short moving average exceeds the long
one by more than 1 percent: CVD momentum is BULLISH. -/
def c1candles : List Candle := List.replicate 25 (Candle.mk 2 2)

/-- The context row the pipeline produces for the claim-1 failing input
(extracted from the `calculate_trade_ready_context` output; the claim-1
theorem certifies that the pipeline output is exactly this row). -/
def c1ctx : PyDict :=
  match calculate_trade_ready_context [c1bq] c1prices with
  | Except.ok (kd :: _) => kd.2
  | _ => []

/-- A joined row whose price (50) is more than 2 percent below the
value-area low (100) and more than 2 percent above the value-area high
(10): both `EXTENDED` conditions of `compute_warnings` hold at once. -/
def c6row : PricedRow :=
  { symbol := "BBBUSDT", timeframe := "W", period_start_date := 1,
    final_poc := some 200, final_vah := some 10, final_val := some 100,
    prior_final_poc := none, prior_final_vah := none, prior_final_val := none,
    va_width_pct := some (5 / 100), poc_change_pct := none,
    value_overlap_pct := some (50 / 100), coverage_flag := "full", price := 50 }

/-- A joined row with a finite but zero point of control: the first level
test divides by zero. -/
def c7row : PricedRow :=
  { symbol := "CCCUSDT", timeframe := "W", period_start_date := 1,
    final_poc := some 0, final_vah := some 150, final_val := some 50,
    prior_final_poc := none, prior_final_vah := none, prior_final_val := none,
    va_width_pct := none, poc_change_pct := none,
    value_overlap_pct := none, coverage_flag := "", price := 100 }

/-- A joined row with nonzero levels and the price strictly inside value,
used to witness the amended claim 7. -/
def c7okrow : PricedRow :=
  { symbol := "DDDUSDT", timeframe := "W", period_start_date := 1,
    final_poc := some 100, final_vah := some 110, final_val := some 90,
    prior_final_poc := none, prior_final_vah := none, prior_final_val := none,
    va_width_pct := none, poc_change_pct := none,
    value_overlap_pct := none, coverage_flag := "", price := 95 }

/-- A 25-candle frame (no `vol_zscore` column yet), as `detect_signals`
receives it from the kline fetcher, used for the claim-8 counterexample. -/
def c8candles : List Candle := List.replicate 25 (Candle.mk 1 0)

/-! ### Shared helper lemmas -/

/-- The CVD curve has one entry per candle. -/
theorem length_cvdCurve (rows : List Candle) : (cvdCurve rows).length = rows.length := by
  simp [cvdCurve, cumsum, List.length_scanl]

/-- Taking the last `n` entries of an `n`-element list is the identity. -/
theorem lastN_all (l : List ℚ) (n : ℕ) (h : l.length = n) : lastN l n = l := by
  simp [lastN, h]

/-- On a series of at least 21 candles, `calculate_cvd_momentum` compares
the mean of the last 11 CVD entries with the mean of the last 21 and always
returns the raw short-minus-long delta. -/
theorem cvd_momentum_long (rows : List Candle) (h : 21 ≤ rows.length) :
    calculate_cvd_momentum rows 11 21 =
      (if qmean (lastN (cvdCurve rows) 11) > qmean (lastN (cvdCurve rows) 21) * (101 / 100)
        then "BULLISH"
        else if qmean (lastN (cvdCurve rows) 11) < qmean (lastN (cvdCurve rows) 21) * (99 / 100)
        then "BEARISH"
        else "NEUTRAL",
       some (qmean (lastN (cvdCurve rows) 11) - qmean (lastN (cvdCurve rows) 21))) := by
  have hne : rows ≠ [] := by
    intro he
    rw [he] at h
    simp at h
  have hlen : (cvdCurve rows).length = rows.length := length_cvdCurve rows
  have h11 : ¬ (cvdCurve rows).length < 11 := by omega
  have h21 : ¬ (cvdCurve rows).length < 21 := by omega
  unfold calculate_cvd_momentum rollingMeanLast
  rw [if_neg (by push_neg; exact ⟨hne, by omega⟩)]
  simp only []
  rw [if_neg h11, if_neg h21]
  show (if _ > _ then _ else _) = _
  split_ifs <;> rfl

/-- Count of a tag in a conditional singleton segment. -/
theorem count_ite_singleton (a b : String) (c : Prop) [Decidable c] :
    List.count a (if c then [b] else []) = if c ∧ b = a then 1 else 0 := by
  split_ifs with h1 h2 h3 <;>
    simp_all [List.count_cons, List.count_nil, beq_iff_eq, eq_comm]

/-- Rounding half-to-even preserves nonnegativity. -/
theorem rndHalfEven_nonneg (q : ℚ) (h : 0 ≤ q) : 0 ≤ rndHalfEven q := by
  unfold rndHalfEven
  have hf : (0 : ℤ) ≤ ⌊q⌋ := Int.floor_nonneg.mpr h
  simp only []
  split_ifs <;> omega

/-- Rounding half-to-even preserves nonpositivity. -/
theorem rndHalfEven_nonpos (q : ℚ) (h : q ≤ 0) : rndHalfEven q ≤ 0 := by
  unfold rndHalfEven
  have hfl : (⌊q⌋ : ℚ) ≤ q := Int.floor_le q
  have hf0 : ⌊q⌋ ≤ 0 := by
    have hm : ⌊q⌋ ≤ ⌊(0 : ℚ)⌋ := Int.floor_le_floor h
    simpa using hm
  simp only []
  split_ifs with h1 h2 h3
  · omega
  · have ha : (⌊q⌋ : ℚ) ≤ q - 1 / 2 := by linarith [not_lt.mp h1]
    have hb : (⌊q⌋ : ℚ) < 0 := by linarith
    have hc : ⌊q⌋ < 0 := by exact_mod_cast hb
    omega
  · omega
  · have ha : (⌊q⌋ : ℚ) ≤ q - 1 / 2 := by linarith [not_lt.mp h1]
    have hb : (⌊q⌋ : ℚ) < 0 := by linarith
    have hc : ⌊q⌋ < 0 := by exact_mod_cast hb
    omega

/-- Two-decimal rounding preserves nonnegativity. -/
theorem round2_nonneg (q : ℚ) (h : 0 ≤ q) : 0 ≤ round2 q := by
  unfold round2
  have hr : (0 : ℤ) ≤ rndHalfEven (q * 100) := rndHalfEven_nonneg _ (by linarith)
  have hrq : (0 : ℚ) ≤ (rndHalfEven (q * 100) : ℚ) := by exact_mod_cast hr
  linarith

/-- A positive two-decimal rounding can only come from a positive value. -/
theorem round2_pos_imp (q : ℚ) (h : 0 < round2 q) : 0 < q := by
  by_contra hc
  push_neg at hc
  have h100 : q * 100 ≤ 0 := by linarith
  have hr : rndHalfEven (q * 100) ≤ 0 := rndHalfEven_nonpos _ h100
  have hrq : ((rndHalfEven (q * 100) : ℤ) : ℚ) ≤ 0 := by exact_mod_cast hr
  unfold round2 at h
  linarith

/-! ### The claims -/

set_option maxRecDepth 8000 in
set_option maxHeartbeats 1600000 in
/-- Claim C1 (code bug, evaluated at the failing input): the Stage-1
pipeline produces a context row with regime `TRENDING` and interaction
`BELOW_VALUE`, the 25-candle series has `BULLISH` CVD momentum, yet
`detect_signals` emits no signal at all — it reads the keys `price_loc_w`
and `weekly_auction_state`, which Stage-1 rows do not carry, so it sees
`UNKNOWN` / `N/A` and the bullish-alignment trigger can never fire. -/
theorem claim1_alignment_trigger_dead :
    calculate_trade_ready_context [c1bq] c1prices = Except.ok [("AAAUSDT", c1ctx)]
    ∧ dictGet c1ctx "regime_w1" PyVal.pnone = PyVal.str "TRENDING"
    ∧ dictGet c1ctx "now_interaction_w1" PyVal.pnone = PyVal.str "BELOW_VALUE"
    ∧ calculate_cvd_momentum c1candles 11 21 = ("BULLISH", some 10)
    ∧ 25 ≤ c1candles.length
    ∧ dictGet c1ctx "price_loc_w" (PyVal.str "UNKNOWN") = PyVal.str "UNKNOWN"
    ∧ dictGet c1ctx "weekly_auction_state" (PyVal.str "N/A") = PyVal.str "N/A"
    ∧ detect_signals "AAAUSDT" (KlinesDF.mk c1candles none) c1ctx (5 / 2)
        = Except.ok (KlinesDF.mk c1candles
            (some (calculate_zscore (c1candles.map Candle.volume) 20)), []) := by
  refine ⟨?_, ?_, ?_, ?_, ?_, ?_, ?_, ?_⟩ <;> with_unfolding_all decide

/-- Claim C2: the relevance banding of `_get_band` coincides with the
specification's strict priority chain (`bandSpec`), and in particular any
row whose warnings contain `COMPRESSED` lands in the lowest tier
unconditionally, even with a test interaction tag. -/
theorem claim2_relevance_priority_chain (warnings : List String) (regime interaction : String) :
    _get_band warnings regime interaction = bandSpec warnings regime interaction
    ∧ ("COMPRESSED" ∈ warnings → _get_band warnings regime interaction = "Ignore for Now") := by
  constructor
  · unfold _get_band bandSpec
    simp only [List.mem_cons, List.mem_singleton, List.not_mem_nil, or_false]
  · intro h
    unfold _get_band
    rw [if_pos h]

/-- Witness for claim C2 at a concrete row: `COMPRESSED` together with a
test tag still yields the lowest tier. -/
theorem claim2_witness :
    "COMPRESSED" ∈ ["COMPRESSED"]
    ∧ _get_band ["COMPRESSED"] "TRENDING" "TEST_POC"
        = bandSpec ["COMPRESSED"] "TRENDING" "TEST_POC"
    ∧ _get_band ["COMPRESSED"] "TRENDING" "TEST_POC" = "Ignore for Now" :=
  ⟨by decide, (claim2_relevance_priority_chain ["COMPRESSED"] "TRENDING" "TEST_POC").1,
   (claim2_relevance_priority_chain ["COMPRESSED"] "TRENDING" "TEST_POC").2 (by decide)⟩

/-- Claim C3: `compute_regime` is the specification's three-range partition
of `value_overlap_pct`: missing overlap is `TRANSITIONAL`, overlap at or
above 0.70 (boundary included) is `BALANCED`, at or below 0.30 (boundary
included) is `TRENDING`, and everything strictly between is
`TRANSITIONAL`. -/
theorem claim3_regime_partition :
    (∀ row : PricedRow, compute_regime row = regimeSpec row.value_overlap_pct)
    ∧ (∀ row : PricedRow, row.value_overlap_pct = none → compute_regime row = "TRANSITIONAL")
    ∧ (∀ row : PricedRow, row.value_overlap_pct = some (70 / 100) →
        compute_regime row = "BALANCED")
    ∧ (∀ row : PricedRow, row.value_overlap_pct = some (30 / 100) →
        compute_regime row = "TRENDING")
    ∧ (∀ (row : PricedRow) (o : ℚ), row.value_overlap_pct = some o →
        30 / 100 < o → o < 70 / 100 → compute_regime row = "TRANSITIONAL") := by
  refine ⟨fun row => ?_, fun row h => ?_, fun row h => ?_, fun row h => ?_,
    fun row o h h1 h2 => ?_⟩
  · unfold compute_regime regimeSpec OVERLAP_BALANCED OVERLAP_TRENDING
    rfl
  · unfold compute_regime; rw [h]
  · unfold compute_regime; rw [h]; norm_num [OVERLAP_BALANCED]
  · unfold compute_regime; rw [h]; norm_num [OVERLAP_BALANCED, OVERLAP_TRENDING]
  · unfold compute_regime
    rw [h]
    show (if o ≥ OVERLAP_BALANCED then "BALANCED"
          else if o ≤ OVERLAP_TRENDING then "TRENDING" else "TRANSITIONAL") = "TRANSITIONAL"
    rw [if_neg (by simp only [OVERLAP_BALANCED, ge_iff_le, not_le]; linarith),
      if_neg (by simp only [OVERLAP_TRENDING, not_le]; linarith)]

/-- Witness for claim C3 at the 0.70 boundary: overlap exactly 0.70
classifies as `BALANCED`. -/
theorem claim3_witness :
    ((⟨{ c6row.toStructRow with value_overlap_pct := some (70 / 100) }, 50⟩ :
        PricedRow).value_overlap_pct = some (70 / 100))
    ∧ compute_regime
        ⟨{ c6row.toStructRow with value_overlap_pct := some (70 / 100) }, 50⟩ = "BALANCED" :=
  ⟨rfl, claim3_regime_partition.2.2.1 _ rfl⟩

/-- Claim C4: `calculate_cvd_momentum` (with its default windows 11 and 21)
returns `NEUTRAL` with a null delta for series shorter than 21 candles; on
exactly 21 candles the long moving average is the mean of the entire CVD
curve (no off-by-one truncation) and the short one the mean of its last 11
entries; and on any series of at least 21 candles the label comes from
comparing the latest short average against 1.01 and 0.99 times the latest
long average, always together with the raw short-minus-long delta. -/
theorem claim4_cvd_momentum_windows :
    (∀ rows : List Candle, rows.length < 21 →
      calculate_cvd_momentum rows 11 21 = ("NEUTRAL", none))
    ∧ (∀ rows : List Candle, rows.length = 21 →
      calculate_cvd_momentum rows 11 21 =
        (if qmean (lastN (cvdCurve rows) 11) > qmean (cvdCurve rows) * (101 / 100)
          then "BULLISH"
          else if qmean (lastN (cvdCurve rows) 11) < qmean (cvdCurve rows) * (99 / 100)
          then "BEARISH"
          else "NEUTRAL",
         some (qmean (lastN (cvdCurve rows) 11) - qmean (cvdCurve rows))))
    ∧ (∀ rows : List Candle, 21 ≤ rows.length →
      calculate_cvd_momentum rows 11 21 =
        (if qmean (lastN (cvdCurve rows) 11) > qmean (lastN (cvdCurve rows) 21) * (101 / 100)
          then "BULLISH"
          else if qmean (lastN (cvdCurve rows) 11) < qmean (lastN (cvdCurve rows) 21) * (99 / 100)
          then "BEARISH"
          else "NEUTRAL",
         some (qmean (lastN (cvdCurve rows) 11) - qmean (lastN (cvdCurve rows) 21)))) := by
  refine ⟨fun rows h => ?_, fun rows h => ?_, fun rows h => cvd_momentum_long rows h⟩
  · unfold calculate_cvd_momentum
    rw [if_pos (Or.inr h)]
  · have hfull : lastN (cvdCurve rows) 21 = cvdCurve rows :=
      lastN_all _ _ (by rw [length_cvdCurve, h])
    rw [cvd_momentum_long rows (le_of_eq h.symm), hfull]

/-- Witness for claim C4 on concrete series of 10, 21 and 25 equal candles
with taker-buy volume equal to total volume: the short series is `NEUTRAL`
with null delta, the boundary and longer series are `BULLISH` with delta
10. -/
theorem claim4_witness :
    ((List.replicate 10 (Candle.mk 2 2)).length < 21
      ∧ calculate_cvd_momentum (List.replicate 10 (Candle.mk 2 2)) 11 21 = ("NEUTRAL", none))
    ∧ ((List.replicate 21 (Candle.mk 2 2)).length = 21
      ∧ calculate_cvd_momentum (List.replicate 21 (Candle.mk 2 2)) 11 21 = ("BULLISH", some 10))
    ∧ (21 ≤ c1candles.length
      ∧ calculate_cvd_momentum c1candles 11 21 = ("BULLISH", some 10)) := by
  refine ⟨⟨by decide, claim4_cvd_momentum_windows.1 _ (by decide)⟩,
          ⟨by decide, ?_⟩, ⟨by decide, ?_⟩⟩
  · rw [claim4_cvd_momentum_windows.2.1 _ (by decide)]
    with_unfolding_all decide
  · rw [claim4_cvd_momentum_windows.2.2 _ (by decide)]
    with_unfolding_all decide

/-- Claim C5: on a candle series shorter than 25 (the empty series
included) and any context row whatsoever, `detect_signals` returns the
empty signal list, raises nothing, and leaves the frame untouched. -/
theorem claim5_short_series_no_signals (symbol : String) (klines_df : KlinesDF)
    (context_row : PyDict) (zscore_threshold : ℚ)
    (h : klines_df.rows.length < 25) :
    detect_signals symbol klines_df context_row zscore_threshold
      = Except.ok (klines_df, []) := by
  unfold detect_signals
  rw [if_pos (Or.inr h)]

/-- Witness for claim C5 on the empty series. -/
theorem claim5_witness :
    (KlinesDF.mk [] none).rows.length < 25
    ∧ detect_signals "BTCUSDT" (KlinesDF.mk [] none) [] (5 / 2)
        = Except.ok (KlinesDF.mk [] none, []) :=
  ⟨by decide, claim5_short_series_no_signals "BTCUSDT" (KlinesDF.mk [] none) [] (5 / 2)
    (by decide)⟩

/-- Claim C6 counterexample: a row whose percent distance to the value-area
low is −50 (more negative than −2) and whose percent distance to the
value-area high is +400 (above +2) carries the `EXTENDED` tag twice, not
once — `compute_warnings` appends it once per condition. -/
theorem claim6_counterexample :
    pct_distance c6row.price c6row.final_val = some (-50)
    ∧ (-50 : ℚ) < -EXTENDED_THRESHOLD
    ∧ pct_distance c6row.price c6row.final_vah = some 400
    ∧ (400 : ℚ) > EXTENDED_THRESHOLD
    ∧ (compute_warnings c6row (pct_distance c6row.price c6row.final_val)
        (pct_distance c6row.price c6row.final_poc)
        (pct_distance c6row.price c6row.final_vah)).count "EXTENDED" = 2 := by
  with_unfolding_all decide

/-- Claim C6 as amended: in `compute_warnings` output the `EXTENDED` tag
occurs once per satisfied condition (hence twice when the distance to the
value-area low is below −2 and the distance to the value-area high is above
+2 simultaneously), while each of the other tags occurs at most once. -/
theorem claim6_extended_appended_twice (row : PricedRow) (pv pp ph : Option ℚ) :
    ((compute_warnings row pv pp ph).count "EXTENDED"
      = (match pv with
         | some q => if q < -EXTENDED_THRESHOLD then 1 else 0
         | none => 0)
        + (match ph with
           | some q => if q > EXTENDED_THRESHOLD then 1 else 0
           | none => 0))
    ∧ (compute_warnings row pv pp ph).count "LOW_CONFIDENCE" ≤ 1
    ∧ (compute_warnings row pv pp ph).count "COMPRESSED" ≤ 1
    ∧ (compute_warnings row pv pp ph).count "PINNED" ≤ 1 := by
  unfold compute_warnings
  refine ⟨?_, ?_, ?_, ?_⟩ <;>
    rcases pv with _ | q1 <;> rcases ph with _ | q2 <;> rcases pp with _ | q3 <;>
      rcases row.va_width_pct with _ | w <;>
      simp +decide only [List.count_append, count_ite_singleton, List.count_nil,
        and_false, and_true, if_false, Nat.zero_add, Nat.add_zero] <;>
      split_ifs <;>
      omega

/-- Claim C7 counterexample: a row whose point of control is the finite
number zero makes `compute_interaction_tag` raise `ZeroDivisionError`
instead of returning a tag. -/
theorem claim7_counterexample :
    c7row.final_poc = some 0
    ∧ compute_interaction_tag c7row
        = Except.error "ZeroDivisionError: float division by zero" := by
  with_unfolding_all decide

/-- Claim C7 as amended: whenever the three levels are present and all
nonzero, `compute_interaction_tag` returns one of the six defined tags and
never raises; in particular the `UNKNOWN` fallback is unreachable for such
rows. -/
theorem claim7_nonzero_levels_total (row : PricedRow) (poc val vah : ℚ)
    (hpoc : row.final_poc = some poc) (hval : row.final_val = some val)
    (hvah : row.final_vah = some vah)
    (h0 : poc ≠ 0) (h1 : val ≠ 0) (h2 : vah ≠ 0) :
    compute_interaction_tag row ∈ interactionTags := by
  by_cases hA : |row.price - poc| / poc ≤ TOLERANCE_PCT / 100
  · simp [compute_interaction_tag, testLevel, hpoc, if_neg h0, hA, interactionTags]
  · by_cases hB : |row.price - val| / val ≤ TOLERANCE_PCT / 100
    · simp [compute_interaction_tag, testLevel, hpoc, hval, if_neg h0, if_neg h1,
        hA, hB, interactionTags]
    · by_cases hC : |row.price - vah| / vah ≤ TOLERANCE_PCT / 100
      · simp [compute_interaction_tag, testLevel, hpoc, hval, hvah, if_neg h0, if_neg h1,
          if_neg h2, hA, hB, hC, interactionTags]
      · by_cases hIn : val ≤ row.price ∧ row.price ≤ vah
        · simp [compute_interaction_tag, testLevel, insideValue, hpoc, hval, hvah,
            if_neg h0, if_neg h1, if_neg h2, hA, hB, hC, hIn, interactionTags]
        · by_cases hBe : row.price < val
          · simp [compute_interaction_tag, testLevel, insideValue, belowValue, hpoc, hval,
              hvah, if_neg h0, if_neg h1, if_neg h2, hA, hB, hC, hIn, hBe, interactionTags]
          · have hvp : val ≤ row.price := le_of_not_lt hBe
            have hAb : vah < row.price := by
              by_contra hc
              push_neg at hc
              exact hIn ⟨hvp, hc⟩
            simp [compute_interaction_tag, testLevel, insideValue, belowValue, aboveValue,
              hpoc, hval, hvah, if_neg h0, if_neg h1, if_neg h2, hA, hB, hC, hIn, hBe,
              hAb, interactionTags]

/-- Witness for the amended claim C7 at a concrete row with nonzero levels
(price strictly inside value). -/
theorem claim7_witness :
    (c7okrow.final_poc = some 100 ∧ c7okrow.final_val = some 90
      ∧ c7okrow.final_vah = some 110
      ∧ (100 : ℚ) ≠ 0 ∧ (90 : ℚ) ≠ 0 ∧ (110 : ℚ) ≠ 0)
    ∧ compute_interaction_tag c7okrow ∈ interactionTags :=
  ⟨⟨rfl, rfl, rfl, by norm_num, by norm_num, by norm_num⟩,
   claim7_nonzero_levels_total c7okrow 100 90 110 rfl rfl rfl
     (by norm_num) (by norm_num) (by norm_num)⟩

/-- Claim C8 counterexample: on a 25-candle frame `detect_signals` hands
back a frame that differs from its input — the `vol_zscore` column has been
assigned into it — so the candle-series argument is not left unchanged. -/
theorem claim8_counterexample :
    detect_signals "AAAUSDT" (KlinesDF.mk c8candles none) [] (5 / 2)
      = Except.ok
          (KlinesDF.mk c8candles (some (calculate_zscore (c8candles.map Candle.volume) 20)), [])
    ∧ KlinesDF.mk c8candles (some (calculate_zscore (c8candles.map Candle.volume) 20))
        ≠ KlinesDF.mk c8candles none := by
  with_unfolding_all decide

/-- Claim C8 as amended: `detect_signals` never touches the candle rows or
the context row, returns the frame unchanged on series shorter than 25
candles, and on longer series its only in-place effect is writing the
`vol_zscore` column of the candle frame. -/
theorem claim8_mutation_scope (symbol : String) (klines_df : KlinesDF)
    (context_row : PyDict) (zscore_threshold : ℚ) (df' : KlinesDF) (sigs : List Signal)
    (h : detect_signals symbol klines_df context_row zscore_threshold
          = Except.ok (df', sigs)) :
    df'.rows = klines_df.rows
    ∧ (klines_df.rows.length < 25 → df' = klines_df)
    ∧ (25 ≤ klines_df.rows.length →
        df'.vol_zscore = some (calculate_zscore (klines_df.rows.map Candle.volume) 20)) := by
  simp only [detect_signals] at h
  split at h
  case isTrue hshort =>
    have hlt : klines_df.rows.length < 25 := by
      rcases hshort with he | hl
      · rw [he]; decide
      · exact hl
    simp only [Except.ok.injEq, Prod.mk.injEq] at h
    rw [← h.1]
    exact ⟨rfl, fun _ => rfl, fun hlong => absurd hlt (by omega)⟩
  case isFalse hlong =>
    have h25 : ¬ klines_df.rows.length < 25 := fun hl => hlong (Or.inr hl)
    split at h
    · exact absurd h (by simp)
    · simp only [Except.ok.injEq, Prod.mk.injEq] at h
      rw [← h.1]
      exact ⟨rfl, fun hshort => absurd hshort h25, fun _ => rfl⟩

/-- Witness for the amended claim C8 on a concrete 25-candle frame. -/
theorem claim8_witness :
    detect_signals "AAAUSDT" (KlinesDF.mk c8candles none) [] (5 / 2)
      = Except.ok
          (KlinesDF.mk c8candles (some (calculate_zscore (c8candles.map Candle.volume) 20)), [])
    ∧ (KlinesDF.mk c8candles (some (calculate_zscore (c8candles.map Candle.volume) 20))).rows
        = (KlinesDF.mk c8candles none).rows
    ∧ 25 ≤ (KlinesDF.mk c8candles none).rows.length
    ∧ (KlinesDF.mk c8candles (some (calculate_zscore (c8candles.map Candle.volume) 20))).vol_zscore
        = some (calculate_zscore ((KlinesDF.mk c8candles none).rows.map Candle.volume) 20) := by
  have hdet : detect_signals "AAAUSDT" (KlinesDF.mk c8candles none) [] (5 / 2)
      = Except.ok
          (KlinesDF.mk c8candles
            (some (calculate_zscore (c8candles.map Candle.volume) 20)), []) := by
    with_unfolding_all decide
  have hm := claim8_mutation_scope "AAAUSDT" (KlinesDF.mk c8candles none) [] (5 / 2) _ _ hdet
  exact ⟨hdet, hm.1, by decide, hm.2.2 (by decide)⟩

/-- Claim C9 counterexample: for level 1000 and price 1000.01 the price is
strictly above the level yet `pct_distance` rounds the 0.001 percent
distance to exactly 0, which is not positive — so "positive exactly when
price is above the level" fails as stated. -/
theorem claim9_counterexample :
    (1000 : ℚ) < 100001 / 100
    ∧ pct_distance (100001 / 100) (some 1000) = some 0
    ∧ ¬ (0 : ℚ) < 0 := by
  with_unfolding_all decide

/-- Claim C9 as amended: `pct_distance` is null exactly when the level is
missing or zero and otherwise rounds `(price - level) / level * 100` to two
decimals; `pct_distance L L = 0` for every nonzero `L`; and for positive
levels a positive result implies the price is above the level, while a
price at or above the level yields a nonnegative (but possibly
rounded-to-zero) result. -/
theorem claim9_pct_distance_props :
    (∀ price : ℚ, pct_distance price none = none)
    ∧ (∀ price : ℚ, pct_distance price (some 0) = none)
    ∧ (∀ price l : ℚ, l ≠ 0 →
        pct_distance price (some l) = some (round2 ((price - l) / l * 100)))
    ∧ (∀ l : ℚ, l ≠ 0 → pct_distance l (some l) = some 0)
    ∧ (∀ price l r : ℚ, 0 < l → pct_distance price (some l) = some r →
        0 < r → l < price)
    ∧ (∀ price l r : ℚ, 0 < l → l ≤ price → pct_distance price (some l) = some r →
        0 ≤ r) := by
  have hform : ∀ price l : ℚ, l ≠ 0 →
      pct_distance price (some l) = some (round2 ((price - l) / l * 100)) := by
    intro price l hl
    unfold pct_distance
    show (if l = 0 then none else some (round2 ((price - l) / l * 100))) = _
    rw [if_neg hl]
  refine ⟨fun _ => rfl, fun p => by
    unfold pct_distance
    show (if (0 : ℚ) = 0 then none else some (round2 ((p - 0) / 0 * 100))) = none
    rw [if_pos rfl], hform, ?_, ?_, ?_⟩
  · intro l hl
    rw [hform l l hl]
    norm_num
    unfold round2 rndHalfEven
    norm_num
  · intro price l r hl hpd hr
    rw [hform price l (ne_of_gt hl)] at hpd
    have hreq : r = round2 ((price - l) / l * 100) := (Option.some.inj hpd).symm
    have hq : 0 < (price - l) / l * 100 := round2_pos_imp _ (hreq ▸ hr)
    have hdiv : 0 < (price - l) / l := by linarith
    have hnum : 0 < price - l := by
      rcases div_pos_iff.mp hdiv with ⟨hn, _⟩ | ⟨_, hd⟩
      · exact hn
      · linarith
    linarith
  · intro price l r hl hle hpd
    rw [hform price l (ne_of_gt hl)] at hpd
    have hreq : r = round2 ((price - l) / l * 100) := (Option.some.inj hpd).symm
    have hq : 0 ≤ (price - l) / l * 100 := by
      have hd : 0 ≤ (price - l) / l := div_nonneg (by linarith) (le_of_lt hl)
      linarith
    rw [hreq]
    exact round2_nonneg _ hq

/-- Witness for the amended claim C9 at level 100: `pct_distance 103 100`
is 3, `pct_distance 2 2` is 0, and both sign facts instantiate. -/
theorem claim9_witness :
    pct_distance 103 (some 100) = some 3
    ∧ pct_distance 2 (some 2) = some 0
    ∧ (100 : ℚ) < 103
    ∧ (0 : ℚ) ≤ 3 := by
  have hpd : pct_distance 103 (some 100) = some 3 := by with_unfolding_all decide
  exact ⟨hpd, claim9_pct_distance_props.2.2.2.1 2 (by norm_num),
    claim9_pct_distance_props.2.2.2.2.1 103 100 3 (by norm_num) hpd (by norm_num),
    claim9_pct_distance_props.2.2.2.2.2 103 100 3 (by norm_num) (by norm_num) hpd⟩

/-- Claim C10: whenever `detect_signals` returns, its signal list holds at
most one CVD-alignment signal (the bullish and bearish branches are an
`if`/`elif`), at most one volume-spike signal, and at most two signals in
total. -/
theorem claim10_at_most_two_signals (symbol : String) (klines_df : KlinesDF)
    (context_row : PyDict) (zscore_threshold : ℚ) (df' : KlinesDF) (sigs : List Signal)
    (h : detect_signals symbol klines_df context_row zscore_threshold
          = Except.ok (df', sigs)) :
    sigs.countP (fun s => s.trigger == "CVD_BULLISH_ALIGN" || s.trigger == "CVD_BEARISH_ALIGN") ≤ 1
    ∧ sigs.countP (fun s => s.trigger == "VOL_ZSCORE") ≤ 1
    ∧ sigs.length ≤ 2 := by
  simp only [detect_signals] at h
  split at h
  · simp only [Except.ok.injEq, Prod.mk.injEq] at h
    rw [← h.2]
    exact ⟨by simp, by simp, by simp⟩
  · split at h
    · exact absurd h (by simp)
    · simp only [Except.ok.injEq, Prod.mk.injEq] at h
      rw [← h.2]
      split
      · split
        · refine ⟨by simp [List.countP_cons], by simp [List.countP_cons], by simp⟩
        · split
          · refine ⟨by simp [List.countP_cons], by simp [List.countP_cons], by simp⟩
          · refine ⟨by simp [List.countP_cons], by simp [List.countP_cons], by simp⟩
      · split
        · refine ⟨by simp [List.countP_cons], by simp [List.countP_cons], by simp⟩
        · split
          · refine ⟨by simp [List.countP_cons], by simp [List.countP_cons], by simp⟩
          · refine ⟨by simp, by simp, by simp⟩

/-- Witness for claim C10 at a concrete call that returns successfully. -/
theorem claim10_witness :
    detect_signals "ETHUSDT" (KlinesDF.mk c8candles none) [] (5 / 2)
      = Except.ok
          (KlinesDF.mk c8candles (some (calculate_zscore (c8candles.map Candle.volume) 20)), [])
    ∧ (([] : List Signal).countP
        (fun s => s.trigger == "CVD_BULLISH_ALIGN" || s.trigger == "CVD_BEARISH_ALIGN") ≤ 1
       ∧ ([] : List Signal).countP (fun s => s.trigger == "VOL_ZSCORE") ≤ 1
       ∧ ([] : List Signal).length ≤ 2) := by
  have hdet : detect_signals "ETHUSDT" (KlinesDF.mk c8candles none) [] (5 / 2)
      = Except.ok
          (KlinesDF.mk c8candles
            (some (calculate_zscore (c8candles.map Candle.volume) 20)), []) := by
    with_unfolding_all decide
  exact ⟨hdet, claim10_at_most_two_signals "ETHUSDT" (KlinesDF.mk c8candles none) [] (5 / 2)
    _ _ hdet⟩

end MarketWorkflow
